import Mathlib

/-!
Shallow embedding of `src/custom_pmm_no_config.py` (class `CustomPMM`), the
decision core of a pure-market-making strategy script.  Python floats and
`Decimal` values are both modelled as real numbers, and the `numpy` aggregate
functions are modelled by their mathematical definitions (`np.std` is the
population standard deviation, `ddof = 0`).  In this real-valued model a NaN
cannot arise: the non-positive-price guard in `calculate_volatility` is the
only source of an undefined logarithm and it is checked first, exactly as in
the source, so the `np.isnan` branch of the source collapses to the
`volatility == 0` test.  External collaborators (connector, budget checker,
logger) are out of scope; `on_tick` reports its observable actions — the new
strategy state, whether `cancel_all_orders` ran, and the list of order
candidates passed on for placement — in a `TickOutput` record.
-/

noncomputable section

namespace CustomPMM

open scoped Classical

/-- Class constant `bid_spread = 0.01`. -/
def bid_spread : ℝ := 0.01

/-- Class constant `ask_spread = 0.01`. -/
def ask_spread : ℝ := 0.01

/-- Class constant `order_refresh_time = 30`. -/
def order_refresh_time : ℝ := 30

/-- Class constant `order_amount = 0.01`. -/
def order_amount : ℝ := 0.01

/-- Class constant `trading_pair = "BTC-USDT"`. -/
def trading_pair : String := "BTC-USDT"

/-- Capacity of the rolling price window: `ref_prices = deque(maxlen=10)`. -/
def window_maxlen : ℕ := 10

/-- Python `deque(maxlen = n).append p`: append `p` on the right and, if the
length now exceeds `n`, evict from the left down to `n` elements. -/
def dequeAppend (xs : List ℝ) (p : ℝ) (n : ℕ) : List ℝ :=
  if n < (xs ++ [p]).length then (xs ++ [p]).drop ((xs ++ [p]).length - n)
  else xs ++ [p]

/-- numpy `np.diff`: differences of consecutive elements. -/
def np_diff : List ℝ → List ℝ
  | [] => []
  | [_] => []
  | x :: y :: rest => (y - x) :: np_diff (y :: rest)

/-- numpy `np.mean`: arithmetic mean (0 on the empty list, matching Lean's
division-by-zero convention; numpy would give NaN, which the caller's
`np.isnan` guard maps to the same epsilon result). -/
def np_mean (xs : List ℝ) : ℝ := xs.sum / xs.length

/-- numpy `np.std` with default `ddof = 0`: population standard deviation. -/
def np_std (xs : List ℝ) : ℝ :=
  Real.sqrt ((xs.map (fun r => (r - np_mean xs) ^ 2)).sum / xs.length)

/-- Method `calculate_volatility`: if any price is non-positive return
`0.0001`; otherwise take `np.std (np.diff (np.log prices))` and replace a
degenerate (zero) result by `0.0001`. -/
def calculate_volatility (prices : List ℝ) : ℝ :=
  if ∃ p ∈ prices, p ≤ 0 then 0.0001
  else
    if np_std (np_diff (prices.map Real.log)) = 0 then 0.0001
    else np_std (np_diff (prices.map Real.log))

/-- Local constant `target_vol = 0.005` in `on_tick`. -/
def target_vol : ℝ := 0.005

/-- Local constant `sensitivity = 100` in `on_tick`. -/
def sensitivity : ℝ := 100

/-- The line `sigmoid = 1 / (1 + np.exp(-vol_diff * sensitivity))` with
`vol_diff = volatility - target_vol`. -/
def sigmoid (volatility : ℝ) : ℝ :=
  1 / (1 + Real.exp (-(volatility - target_vol) * sensitivity))

/-- The line `scale = 1.5 - sigmoid`. -/
def scale (volatility : ℝ) : ℝ := 1.5 - sigmoid volatility

/-- The line `base_amount = order_amount * scale`, as a function of the
already-computed scale factor. -/
def base_amount (scl : ℝ) : ℝ := order_amount * scl

/-- The line `dynamic_bid_spread = bid_spread * (2 - scale)`. -/
def dynamic_bid_spread (scl : ℝ) : ℝ := bid_spread * (2 - scl)

/-- The line `dynamic_ask_spread = ask_spread * (2 - scale)`. -/
def dynamic_ask_spread (scl : ℝ) : ℝ := ask_spread * (2 - scl)

/-- Local constant `target_ratio = Decimal("0.5")` in `on_tick` (renamed
here to avoid a lexical clash). -/
def target_weight : ℝ := 0.5

/-- Local constant `skew_strength = Decimal("1.5")` in `on_tick`. -/
def skew_strength : ℝ := 1.5

/-- Local constant `min_order = Decimal("0.0001")` in `on_tick`. -/
def min_order : ℝ := 0.0001

/-- The lines `btc_value = btc_balance * mid_price`,
`current_ratio = btc_value / total_value`,
`inventory_skew = current_ratio - target_ratio`. -/
def inventory_skew (btc_balance usdt_balance mid_price : ℝ) : ℝ :=
  btc_balance * mid_price / (btc_balance * mid_price + usdt_balance)
    - target_weight

/-- The line `buy_amount = base_amount * (Decimal("1.0") - skew_strength *
inventory_skew)`, before the floor. -/
def raw_buy_amount (b skew : ℝ) : ℝ := b * (1 - skew_strength * skew)

/-- The line `sell_amount = base_amount * (Decimal("1.0") + skew_strength *
inventory_skew)`, before the floor. -/
def raw_sell_amount (b skew : ℝ) : ℝ := b * (1 + skew_strength * skew)

/-- The line `buy_amount = max(buy_amount, min_order)`. -/
def buy_amount (b skew : ℝ) : ℝ := max (raw_buy_amount b skew) min_order

/-- The line `sell_amount = max(sell_amount, min_order)`. -/
def sell_amount (b skew : ℝ) : ℝ := max (raw_sell_amount b skew) min_order

/-- Hummingbot `TradeType`, restricted to the two sides the script uses. -/
inductive TradeType
  | BUY
  | SELL
deriving DecidableEq

/-- Hummingbot `OrderType`; the script only ever builds LIMIT orders. -/
inductive OrderKind
  | LIMIT
deriving DecidableEq

/-- Hummingbot `OrderCandidate`, with the fields the script sets. -/
structure OrderCandidate where
  pair : String
  is_maker : Bool
  order_type : OrderKind
  order_side : TradeType
  amount : ℝ
  price : ℝ

instance : Inhabited OrderCandidate :=
  ⟨⟨trading_pair, true, OrderKind.LIMIT, TradeType.BUY, 0, 0⟩⟩

/-- Method `create_proposal`: one maker BUY at
`ref_price * (1 - bid_spread / 100)` and one maker SELL at
`ref_price * (1 + ask_spread / 100)`. -/
def create_proposal (ref_price bid_s ask_s buy_amt sell_amt : ℝ) :
    List OrderCandidate :=
  [⟨trading_pair, true, OrderKind.LIMIT, TradeType.BUY, buy_amt,
      ref_price * (1 - bid_s / 100)⟩,
   ⟨trading_pair, true, OrderKind.LIMIT, TradeType.SELL, sell_amt,
      ref_price * (1 + ask_s / 100)⟩]

/-- The mutable strategy state: the rolling window `ref_prices` and the
refresh deadline `create_timestamp`. -/
structure StrategyState where
  ref_prices : List ℝ
  create_timestamp : ℝ

/-- The per-tick external inputs: the connector's reference price, the two
balances, and the clock. -/
structure TickInput where
  ref_price : ℝ
  btc_balance : ℝ
  usdt_balance : ℝ
  current_timestamp : ℝ

/-- Observable outcome of one `on_tick` call: the new state, whether
`cancel_all_orders` was invoked, and the order candidates handed to
`place_orders` (empty when the tick placed nothing). -/
structure TickOutput where
  state : StrategyState
  cancelled : Bool
  placed : List OrderCandidate

/-- The lines `btc_value = btc_balance * mid_price;
total_value = btc_value + usdt_balance`. -/
def total_value (inp : TickInput) : ℝ :=
  inp.btc_balance * inp.ref_price + inp.usdt_balance

/-- Method `on_tick`: append the reference price to the window; skip while
the window is not full; skip order management when the total portfolio value
is zero; otherwise, when `create_timestamp <= current_timestamp`, cancel all
orders, build the proposal from the volatility-scaled spreads and the
inventory-skewed amounts, place it, and push `create_timestamp` forward by
`order_refresh_time`. -/
def on_tick (s : StrategyState) (inp : TickInput) : TickOutput :=
  let ref_prices := dequeAppend s.ref_prices inp.ref_price window_maxlen
  let volatility := calculate_volatility ref_prices
  let scl := scale volatility
  let skew := inventory_skew inp.btc_balance inp.usdt_balance inp.ref_price
  if ref_prices.length < window_maxlen then
    ⟨⟨ref_prices, s.create_timestamp⟩, false, []⟩
  else if total_value inp = 0 then
    ⟨⟨ref_prices, s.create_timestamp⟩, false, []⟩
  else if s.create_timestamp ≤ inp.current_timestamp then
    ⟨⟨ref_prices, inp.current_timestamp + order_refresh_time⟩, true,
      create_proposal inp.ref_price (dynamic_bid_spread scl)
        (dynamic_ask_spread scl)
        (buy_amount (base_amount scl) skew)
        (sell_amount (base_amount scl) skew)⟩
  else
    ⟨⟨ref_prices, s.create_timestamp⟩, false, []⟩

/-- Hummingbot `OrderFilledEvent`, with the fields the script reads. -/
structure OrderFilledEvent where
  trade_type : TradeType
  amount : ℝ
  pair : String
  price : ℝ

/-- Method `did_fill_order`: formats and forwards a notification message to
the external notifier and touches no strategy state. -/
def did_fill_order (s : StrategyState) (_e : OrderFilledEvent) :
    StrategyState := s

/-- Abbreviation for the window after the tick's append. -/
def tickWindow (s : StrategyState) (inp : TickInput) : List ℝ :=
  dequeAppend s.ref_prices inp.ref_price window_maxlen

/-- Abbreviation for the scale factor computed on a tick. -/
def tickScale (s : StrategyState) (inp : TickInput) : ℝ :=
  scale (calculate_volatility (tickWindow s inp))

/-- Abbreviation for the inventory skew computed on a tick. -/
def tickSkew (inp : TickInput) : ℝ :=
  inventory_skew inp.btc_balance inp.usdt_balance inp.ref_price

/-- Abbreviation for the proposal built on a refreshing tick. -/
def tickProposal (s : StrategyState) (inp : TickInput) : List OrderCandidate :=
  create_proposal inp.ref_price (dynamic_bid_spread (tickScale s inp))
    (dynamic_ask_spread (tickScale s inp))
    (buy_amount (base_amount (tickScale s inp)) (tickSkew inp))
    (sell_amount (base_amount (tickScale s inp)) (tickSkew inp))

lemma np_diff_cons_cons (x y : ℝ) (rest : List ℝ) :
    np_diff (x :: y :: rest) = (y - x) :: np_diff (y :: rest) := rfl

lemma np_diff_replicate (n : ℕ) (a : ℝ) :
    np_diff (List.replicate (n + 1) a) = List.replicate n 0 := by
  induction n with
  | zero => rfl
  | succ n ih =>
    have h : List.replicate (n + 1 + 1) a = a :: a :: List.replicate n a := by
      simp [List.replicate_succ]
    rw [h, np_diff_cons_cons, ← List.replicate_succ, ih, sub_self,
      ← List.replicate_succ]

lemma np_diff_length : ∀ xs : List ℝ, (np_diff xs).length = xs.length - 1
  | [] => rfl
  | [_] => rfl
  | x :: y :: rest => by
    rw [np_diff_cons_cons]
    simp [np_diff_length (y :: rest)]

lemma np_std_nonneg (xs : List ℝ) : 0 ≤ np_std xs := Real.sqrt_nonneg _

lemma np_mean_replicate (n : ℕ) (a : ℝ) (hn : n ≠ 0) :
    np_mean (List.replicate n a) = a := by
  rw [np_mean, List.sum_replicate, List.length_replicate, nsmul_eq_mul,
    mul_div_cancel_left₀ a (Nat.cast_ne_zero.mpr hn)]

lemma np_std_replicate (n : ℕ) (a : ℝ) : np_std (List.replicate n a) = 0 := by
  rcases eq_or_ne n 0 with h | h
  · subst h
    simp [np_std, np_mean]
  · rw [np_std, List.map_replicate, np_mean_replicate n a h]
    simp

lemma np_std_replicate_zero (n : ℕ) :
    np_std (List.replicate n (0 : ℝ)) = 0 :=
  np_std_replicate n 0

lemma calculate_volatility_pos (prices : List ℝ) :
    0 < calculate_volatility prices := by
  unfold calculate_volatility
  split
  · norm_num
  · split
    · norm_num
    · rename_i h2
      exact lt_of_le_of_ne (np_std_nonneg _) (Ne.symm h2)

lemma calculate_volatility_replicate (n : ℕ) (p : ℝ) (hp : 0 < p) :
    calculate_volatility (List.replicate (n + 1) p) = 0.0001 := by
  have hno : ¬ ∃ q ∈ List.replicate (n + 1) p, q ≤ 0 := by
    rintro ⟨q, hq, hle⟩
    rw [List.eq_of_mem_replicate hq] at hle
    linarith
  have hz : np_std (np_diff ((List.replicate (n + 1) p).map Real.log)) = 0 := by
    rw [List.map_replicate, np_diff_replicate, np_std_replicate_zero]
  unfold calculate_volatility
  rw [if_neg hno, if_pos hz]

lemma sigmoid_pos (v : ℝ) : 0 < sigmoid v := by
  unfold sigmoid
  positivity

lemma sigmoid_lt_one (v : ℝ) : sigmoid v < 1 := by
  unfold sigmoid
  rw [div_lt_one (by positivity)]
  linarith [Real.exp_pos (-(v - target_vol) * sensitivity)]

lemma sigmoid_lt_sigmoid {v w : ℝ} (h : v < w) : sigmoid v < sigmoid w := by
  unfold sigmoid
  apply one_div_lt_one_div_of_lt
  · positivity
  · have hexp : Real.exp (-(w - target_vol) * sensitivity) <
        Real.exp (-(v - target_vol) * sensitivity) := by
      apply Real.exp_lt_exp.mpr
      have hs : (0 : ℝ) < sensitivity := by norm_num [sensitivity]
      nlinarith
    linarith

lemma on_tick_warming (s : StrategyState) (inp : TickInput)
    (h : (tickWindow s inp).length < window_maxlen) :
    on_tick s inp = ⟨⟨tickWindow s inp, s.create_timestamp⟩, false, []⟩ := by
  rw [tickWindow] at h
  simp only [on_tick, tickWindow]
  rw [if_pos h]

lemma on_tick_zero_total (s : StrategyState) (inp : TickInput)
    (h1 : ¬ (tickWindow s inp).length < window_maxlen)
    (h2 : total_value inp = 0) :
    on_tick s inp = ⟨⟨tickWindow s inp, s.create_timestamp⟩, false, []⟩ := by
  rw [tickWindow] at h1
  simp only [on_tick, tickWindow]
  rw [if_neg h1, if_pos h2]

lemma on_tick_idle (s : StrategyState) (inp : TickInput)
    (h1 : ¬ (tickWindow s inp).length < window_maxlen)
    (h2 : ¬ total_value inp = 0)
    (h3 : ¬ s.create_timestamp ≤ inp.current_timestamp) :
    on_tick s inp = ⟨⟨tickWindow s inp, s.create_timestamp⟩, false, []⟩ := by
  rw [tickWindow] at h1
  simp only [on_tick, tickWindow]
  rw [if_neg h1, if_neg h2, if_neg h3]

lemma on_tick_refresh (s : StrategyState) (inp : TickInput)
    (h1 : ¬ (tickWindow s inp).length < window_maxlen)
    (h2 : ¬ total_value inp = 0)
    (h3 : s.create_timestamp ≤ inp.current_timestamp) :
    on_tick s inp =
      ⟨⟨tickWindow s inp, inp.current_timestamp + order_refresh_time⟩, true,
        tickProposal s inp⟩ := by
  rw [tickWindow] at h1
  simp only [on_tick, tickWindow, tickProposal, tickScale, tickSkew]
  rw [if_neg h1, if_neg h2, if_pos h3]

/-- C1: `calculate_volatility` returns exactly `1e-4` when some price in the
window is non-positive; on a window of 10 positive prices it returns the
population standard deviation of the 9 consecutive log-returns unless that
value is exactly 0, in which case it returns exactly `1e-4` (stated for every
window of positive prices, constant or not); the result is strictly positive
for every input (in this real-valued model it is a real number, hence finite
and not NaN); and a window of 10 identical positive prices yields exactly
`1e-4`. -/
theorem c1_calculate_volatility_spec :
    (∀ prices : List ℝ, (∃ p ∈ prices, p ≤ 0) →
      calculate_volatility prices = 0.0001) ∧
    (∀ prices : List ℝ, prices.length = 10 →
      (np_diff (prices.map Real.log)).length = 9 ∧
      ((¬ ∃ p ∈ prices, p ≤ 0) →
        np_std (np_diff (prices.map Real.log)) ≠ 0 →
        calculate_volatility prices = np_std (np_diff (prices.map Real.log)))) ∧
    (∀ prices : List ℝ, (¬ ∃ p ∈ prices, p ≤ 0) →
      np_std (np_diff (prices.map Real.log)) = 0 →
      calculate_volatility prices = 0.0001) ∧
    (∀ prices : List ℝ, 0 < calculate_volatility prices) ∧
    (∀ p : ℝ, 0 < p → calculate_volatility (List.replicate 10 p) = 0.0001) := by
  refine ⟨?_, ?_, ?_, calculate_volatility_pos, ?_⟩
  · intro prices h
    unfold calculate_volatility
    rw [if_pos h]
  · intro prices hlen
    constructor
    · rw [np_diff_length, List.length_map, hlen]
    · intro hpos hstd
      unfold calculate_volatility
      rw [if_neg hpos, if_neg hstd]
  · intro prices hpos hstd
    unfold calculate_volatility
    rw [if_neg hpos, if_pos hstd]
  · intro p hp
    exact calculate_volatility_replicate 9 p hp

/-- Witness for C1 at concrete windows: a window containing `-1`, the
non-degenerate window `[1,…,1, e]`, the non-constant zero-variance
geometric window `[e¹, e², …, e¹⁰]` (log-returns all 1), the all-equal
window `replicate 10 2`, and the all-equal window `replicate 10 100`. -/
theorem c1_witness :
    calculate_volatility [-1, 1, 1, 1, 1, 1, 1, 1, 1, 1] = 0.0001 ∧
    calculate_volatility [1, 1, 1, 1, 1, 1, 1, 1, 1, Real.exp 1] =
      np_std (np_diff
        (List.map Real.log [1, 1, 1, 1, 1, 1, 1, 1, 1, Real.exp 1])) ∧
    calculate_volatility [Real.exp 1, Real.exp 2, Real.exp 3, Real.exp 4,
      Real.exp 5, Real.exp 6, Real.exp 7, Real.exp 8, Real.exp 9,
      Real.exp 10] = 0.0001 ∧
    0 < calculate_volatility (List.replicate 10 2) ∧
    calculate_volatility (List.replicate 10 100) = 0.0001 := by
  have hmap : List.map Real.log [1, 1, 1, 1, 1, 1, 1, 1, 1, Real.exp 1] =
      [0, 0, 0, 0, 0, 0, 0, 0, 0, 1] := by
    simp
  have hdiff : np_diff [0, 0, 0, 0, 0, 0, 0, 0, 0, (1 : ℝ)] =
      [0, 0, 0, 0, 0, 0, 0, 0, 1] := by
    norm_num [np_diff]
  have hstd : np_std [0, 0, 0, 0, 0, 0, 0, 0, (1 : ℝ)] ≠ 0 := by
    have hpos : (0 : ℝ) < np_std [0, 0, 0, 0, 0, 0, 0, 0, (1 : ℝ)] := by
      rw [np_std]
      apply Real.sqrt_pos.mpr
      norm_num [np_mean]
    exact ne_of_gt hpos
  have hmapg : List.map Real.log [Real.exp 1, Real.exp 2, Real.exp 3,
      Real.exp 4, Real.exp 5, Real.exp 6, Real.exp 7, Real.exp 8, Real.exp 9,
      Real.exp 10] = [1, 2, 3, 4, 5, 6, 7, 8, 9, 10] := by
    simp
  have hdiffg : np_diff [(1 : ℝ), 2, 3, 4, 5, 6, 7, 8, 9, 10] =
      List.replicate 9 1 := by
    norm_num [np_diff]
    rfl
  refine ⟨c1_calculate_volatility_spec.1 _ ⟨-1, by simp, by norm_num⟩,
    (c1_calculate_volatility_spec.2.1 _ (by simp)).2 ?_ ?_,
    c1_calculate_volatility_spec.2.2.1 _ ?_ ?_,
    c1_calculate_volatility_spec.2.2.2.1 _,
    c1_calculate_volatility_spec.2.2.2.2 100 (by norm_num)⟩
  · rintro ⟨q, hq, hle⟩
    have he : (0 : ℝ) < Real.exp 1 := Real.exp_pos 1
    simp at hq
    rcases hq with hq | hq <;> rw [hq] at hle <;> linarith
  · rw [hmap, hdiff]
    exact hstd
  · rintro ⟨q, hq, hle⟩
    simp at hq
    rcases hq with hq | hq | hq | hq | hq | hq | hq | hq | hq | hq <;>
      rw [hq] at hle <;>
      exact absurd hle (not_le.mpr (Real.exp_pos _))
  · rw [hmapg, hdiffg]
    exact np_std_replicate 9 1

/-- C2: with `target_vol = 0.005` and `sensitivity = 100`, the scale factor
`1.5 - 1/(1 + exp(-(v - target_vol)·sensitivity))` lies strictly between 0.5
and 1.5 for every volatility, equals exactly 1 at `v = target_vol`, and is
strictly decreasing in the volatility. -/
theorem c2_scale_spec :
    target_vol = 0.005 ∧ sensitivity = 100 ∧
    (∀ v : ℝ,
      scale v = 1.5 - 1 / (1 + Real.exp (-(v - target_vol) * sensitivity))) ∧
    (∀ v : ℝ, 0.5 < scale v ∧ scale v < 1.5) ∧
    scale target_vol = 1 ∧
    (∀ v1 v2 : ℝ, v1 < v2 → scale v2 < scale v1) := by
  refine ⟨rfl, rfl, fun v => rfl, ?_, ?_, ?_⟩
  · intro v
    have h1 := sigmoid_pos v
    have h2 := sigmoid_lt_one v
    unfold scale
    constructor <;> linarith
  · unfold scale sigmoid
    norm_num [target_vol, sensitivity, Real.exp_zero]
  · intro v1 v2 h
    have := sigmoid_lt_sigmoid h
    unfold scale
    linarith

/-- Witness for C2 at concrete volatilities 0, 0.005 and 0.01. -/
theorem c2_witness :
    (0.5 < scale 0.01 ∧ scale 0.01 < 1.5) ∧ scale 0.005 < scale 0 :=
  ⟨c2_scale_spec.2.2.2.1 0.01,
   c2_scale_spec.2.2.2.2.2 0 0.005 (by norm_num)⟩

/-- C3: every order candidate actually handed to order placement by a tick
has amount at least `min_order = 0.0001`, whatever the state, balances and
prices are. -/
theorem c3_amounts_floored (s : StrategyState) (inp : TickInput)
    (o : OrderCandidate) (ho : o ∈ (on_tick s inp).placed) :
    min_order ≤ o.amount ∧ min_order = 0.0001 := by
  refine ⟨?_, rfl⟩
  by_cases h1 : (tickWindow s inp).length < window_maxlen
  · rw [on_tick_warming s inp h1] at ho
    simp at ho
  · by_cases h2 : total_value inp = 0
    · rw [on_tick_zero_total s inp h1 h2] at ho
      simp at ho
    · by_cases h3 : s.create_timestamp ≤ inp.current_timestamp
      · rw [on_tick_refresh s inp h1 h2 h3] at ho
        simp [tickProposal, create_proposal] at ho
        rcases ho with ho | ho <;> rw [ho] <;>
          exact le_max_right _ _
      · rw [on_tick_idle s inp h1 h2 h3] at ho
        simp at ho

/-- Witness for C3: the first order placed on a concrete refreshing tick has
amount at least `min_order`. -/
theorem c3_witness :
    min_order ≤
      ((on_tick ⟨List.replicate 9 1, 0⟩ ⟨1, 1, 1, 0⟩).placed.headI).amount := by
  have h1 : ¬ (tickWindow ⟨List.replicate 9 1, 0⟩ ⟨1, 1, 1, 0⟩).length <
      window_maxlen := by
    norm_num [tickWindow, dequeAppend, window_maxlen]
  have h2 : ¬ total_value ⟨1, 1, 1, 0⟩ = 0 := by
    norm_num [total_value]
  have h3 : (0 : ℝ) ≤ 0 := le_refl 0
  refine (c3_amounts_floored ⟨List.replicate 9 1, 0⟩ ⟨1, 1, 1, 0⟩ _ ?_).1
  rw [on_tick_refresh _ _ h1 h2 h3]
  simp [tickProposal, create_proposal]

lemma dequeAppend_length_of_full (xs : List ℝ) (p : ℝ)
    (h : xs.length = window_maxlen) :
    (dequeAppend xs p window_maxlen).length = window_maxlen := by
  simp [dequeAppend, h, window_maxlen]

/-- C4: `create_proposal` returns exactly the two-element list of a maker
BUY at `ref_price·(1 - bid_spread/100)` and a maker SELL at
`ref_price·(1 + ask_spread/100)`; at reference price 100 with both spreads 1
the prices are exactly 99 and 101; and for a positive reference price and
positive spreads below 100 the buy price is below and the sell price above
the reference price. -/
theorem c4_create_proposal_spec :
    (∀ rp bs ak ba sa : ℝ, create_proposal rp bs ak ba sa =
      [⟨trading_pair, true, OrderKind.LIMIT, TradeType.BUY, ba,
          rp * (1 - bs / 100)⟩,
       ⟨trading_pair, true, OrderKind.LIMIT, TradeType.SELL, sa,
          rp * (1 + ak / 100)⟩]) ∧
    (∀ ba sa : ℝ, create_proposal 100 1 1 ba sa =
      [⟨trading_pair, true, OrderKind.LIMIT, TradeType.BUY, ba, 99⟩,
       ⟨trading_pair, true, OrderKind.LIMIT, TradeType.SELL, sa, 101⟩]) ∧
    (∀ rp bs ak ba sa : ℝ, 0 < rp → 0 < bs → bs < 100 → 0 < ak → ak < 100 →
      ((create_proposal rp bs ak ba sa).headI).price < rp ∧
      rp < ((create_proposal rp bs ak ba sa).tail.headI).price) := by
  refine ⟨fun _ _ _ _ _ => rfl, ?_, ?_⟩
  · intro ba sa
    simp only [create_proposal]
    norm_num
  · intro rp bs ak ba sa hrp hbs _ hak _
    constructor
    · show rp * (1 - bs / 100) < rp
      nlinarith
    · show rp < rp * (1 + ak / 100)
      nlinarith

/-- Witness for C4: at reference price 100, spreads 1 and amounts 0.01 the
buy price is below 100 and the sell price above 100. -/
theorem c4_witness :
    ((create_proposal 100 1 1 0.01 0.01).headI).price < 100 ∧
    (100 : ℝ) < ((create_proposal 100 1 1 0.01 0.01).tail.headI).price :=
  c4_create_proposal_spec.2.2 100 1 1 0.01 0.01 (by norm_num) (by norm_num)
    (by norm_num) (by norm_num) (by norm_num)

/-- C5: on a tick with a full window whose portfolio value
`btc_balance·mid_price + usdt_balance` is zero, `on_tick` only records the
appended price: it cancels nothing, places nothing and leaves
`create_timestamp` unchanged. -/
theorem c5_zero_total_skip (s : StrategyState) (inp : TickInput)
    (hfull : (tickWindow s inp).length = window_maxlen)
    (hzero : total_value inp = 0) :
    on_tick s inp = ⟨⟨tickWindow s inp, s.create_timestamp⟩, false, []⟩ :=
  on_tick_zero_total s inp (by rw [hfull]; exact lt_irrefl _) hzero

/-- Witness for C5 at a concrete full window and zero balances. -/
theorem c5_witness :
    on_tick ⟨List.replicate 9 1, 7⟩ ⟨2, 0, 0, 0⟩ =
      ⟨⟨tickWindow ⟨List.replicate 9 1, 7⟩ ⟨2, 0, 0, 0⟩, 7⟩, false, []⟩ :=
  c5_zero_total_skip ⟨List.replicate 9 1, 7⟩ ⟨2, 0, 0, 0⟩
    (by norm_num [tickWindow, dequeAppend, window_maxlen])
    (by norm_num [total_value])

/-- C6: while the window holds fewer than 10 prices after the append, the
tick only appends the price: nothing is cancelled or placed and
`create_timestamp` is unchanged. -/
theorem c6_warming_skip (s : StrategyState) (inp : TickInput)
    (h : (tickWindow s inp).length < window_maxlen) :
    on_tick s inp = ⟨⟨tickWindow s inp, s.create_timestamp⟩, false, []⟩ :=
  on_tick_warming s inp h

/-- Witness for C6 at the empty starting window. -/
theorem c6_witness :
    on_tick ⟨[], 5⟩ ⟨1, 2, 3, 4⟩ = ⟨⟨[1], 5⟩, false, []⟩ := by
  have h : (tickWindow ⟨[], 5⟩ ⟨1, 2, 3, 4⟩).length < window_maxlen := by
    norm_num [tickWindow, dequeAppend, window_maxlen]
  rw [c6_warming_skip ⟨[], 5⟩ ⟨1, 2, 3, 4⟩ h]
  norm_num [tickWindow, dequeAppend, window_maxlen]

/-- C7: on every tick, either `create_timestamp` is unchanged and nothing
was cancelled or placed, or the tick ran a full proposal cycle (cancel and a
non-empty placement) and `create_timestamp` was set to exactly
`current_timestamp + order_refresh_time`; and the only other entry point,
`did_fill_order`, never changes the strategy state. -/
theorem c7_timestamp_mutation (s : StrategyState) (inp : TickInput) :
    (((on_tick s inp).state.create_timestamp = s.create_timestamp ∧
      (on_tick s inp).cancelled = false ∧ (on_tick s inp).placed = []) ∨
     ((on_tick s inp).cancelled = true ∧ (on_tick s inp).placed ≠ [] ∧
      (on_tick s inp).state.create_timestamp =
        inp.current_timestamp + order_refresh_time)) ∧
    (∀ (t : StrategyState) (e : OrderFilledEvent), did_fill_order t e = t) := by
  refine ⟨?_, fun _ _ => rfl⟩
  by_cases h1 : (tickWindow s inp).length < window_maxlen
  · rw [on_tick_warming s inp h1]
    left
    exact ⟨rfl, rfl, rfl⟩
  · by_cases h2 : total_value inp = 0
    · rw [on_tick_zero_total s inp h1 h2]
      left
      exact ⟨rfl, rfl, rfl⟩
    · by_cases h3 : s.create_timestamp ≤ inp.current_timestamp
      · rw [on_tick_refresh s inp h1 h2 h3]
        right
        refine ⟨rfl, ?_, rfl⟩
        simp [tickProposal, create_proposal]
      · rw [on_tick_idle s inp h1 h2 h3]
        left
        exact ⟨rfl, rfl, rfl⟩

/-- C8: with a full window, nonzero portfolio value and the clock strictly
before `create_timestamp`, a tick cancels nothing, places nothing and keeps
`create_timestamp`; and a second such tick right after behaves the same. -/
theorem c8_idle_idempotent (s : StrategyState) (inp1 inp2 : TickInput)
    (hfull : (tickWindow s inp1).length = window_maxlen)
    (htot1 : total_value inp1 ≠ 0)
    (hts1 : inp1.current_timestamp < s.create_timestamp)
    (htot2 : total_value inp2 ≠ 0)
    (hts2 : inp2.current_timestamp < s.create_timestamp) :
    on_tick s inp1 = ⟨⟨tickWindow s inp1, s.create_timestamp⟩, false, []⟩ ∧
    on_tick (on_tick s inp1).state inp2 =
      ⟨⟨tickWindow (on_tick s inp1).state inp2, s.create_timestamp⟩,
        false, []⟩ := by
  have hlt1 : ¬ (tickWindow s inp1).length < window_maxlen := by
    rw [hfull]
    exact lt_irrefl _
  have h1 := on_tick_idle s inp1 hlt1 htot1 (not_le.mpr hts1)
  refine ⟨h1, ?_⟩
  have hstate : (on_tick s inp1).state =
      ⟨tickWindow s inp1, s.create_timestamp⟩ := by rw [h1]
  rw [hstate]
  have hfull2 : ¬ (tickWindow ⟨tickWindow s inp1, s.create_timestamp⟩
      inp2).length < window_maxlen := by
    rw [tickWindow, dequeAppend_length_of_full _ _ hfull]
    exact lt_irrefl _
  exact on_tick_idle _ inp2 hfull2 htot2 (not_le.mpr hts2)

/-- Witness for C8 at a concrete idle state ticked twice. -/
theorem c8_witness :
    on_tick ⟨List.replicate 9 1, 100⟩ ⟨1, 1, 1, 0⟩ =
      ⟨⟨tickWindow ⟨List.replicate 9 1, 100⟩ ⟨1, 1, 1, 0⟩, 100⟩,
        false, []⟩ ∧
    on_tick (on_tick ⟨List.replicate 9 1, 100⟩ ⟨1, 1, 1, 0⟩).state
        ⟨1, 1, 1, 0⟩ =
      ⟨⟨tickWindow (on_tick ⟨List.replicate 9 1, 100⟩ ⟨1, 1, 1, 0⟩).state
          ⟨1, 1, 1, 0⟩, 100⟩, false, []⟩ :=
  c8_idle_idempotent ⟨List.replicate 9 1, 100⟩ ⟨1, 1, 1, 0⟩ ⟨1, 1, 1, 0⟩
    (by norm_num [tickWindow, dequeAppend, window_maxlen])
    (by norm_num [total_value]) (by norm_num)
    (by norm_num [total_value]) (by norm_num)

lemma exp_049_lb : (1.55 : ℝ) ≤ Real.exp 0.49 := by
  have h : (1.245 : ℝ) ≤ Real.exp 0.245 := by
    have := Real.add_one_le_exp (0.245 : ℝ)
    linarith
  have hsq : (1.245 : ℝ) * 1.245 ≤ Real.exp 0.245 * Real.exp 0.245 :=
    mul_le_mul h h (by norm_num) (le_of_lt (Real.exp_pos _))
  rw [← Real.exp_add] at hsq
  norm_num at hsq
  linarith

lemma exp_049_ub : Real.exp 0.49 < 1.65 := by
  have h1 : Real.exp 0.49 < Real.exp 0.5 := Real.exp_lt_exp.mpr (by norm_num)
  have h2 : Real.exp 0.5 < 1.65 := by
    have hsq : Real.exp 0.5 ^ 2 = Real.exp 1 := by
      rw [sq, ← Real.exp_add]
      norm_num
    have he : Real.exp 1 < 2.7182818286 := Real.exp_one_lt_d9
    have hlt : Real.exp 0.5 ^ 2 < (1.65 : ℝ) ^ 2 := by
      rw [hsq]
      nlinarith
    exact lt_of_pow_lt_pow_left₀ 2 (by norm_num) hlt
  linarith

lemma scale_at_epsilon : 1.1 < scale 0.0001 ∧ scale 0.0001 < 1.13 := by
  have harg : -((0.0001 : ℝ) - target_vol) * sensitivity = 0.49 := by
    norm_num [target_vol, sensitivity]
  have hlb := exp_049_lb
  have hub := exp_049_ub
  have hpos : (0 : ℝ) < 1 + Real.exp 0.49 := by positivity
  have hs : sigmoid 0.0001 = 1 / (1 + Real.exp 0.49) := by
    rw [sigmoid, harg]
  have hl : 1 / (1 + Real.exp 0.49) ≤ 1 / (2.55 : ℝ) :=
    one_div_le_one_div_of_le (by norm_num) (by linarith)
  have hu : 1 / (2.65 : ℝ) < 1 / (1 + Real.exp 0.49) :=
    one_div_lt_one_div_of_lt hpos (by linarith)
  have h255 : (1 : ℝ) / 2.55 < 0.4 := by norm_num
  have h265 : (0.37 : ℝ) < 1 / 2.65 := by norm_num
  rw [scale, hs]
  constructor <;> linarith

/-- C9 counterexample: on the window of 10 identical prices of 100 the
volatility is exactly epsilon, but the resulting scale factor exceeds 1.1
(its exact value is 1.5 - 1/(1 + e^0.49) ≈ 1.12), so it is not within 0.1 of
1.0: the claim's "scale is approximately 1.0" fails. -/
theorem c9_counterexample :
    calculate_volatility (List.replicate 10 (100 : ℝ)) = 0.0001 ∧
    ¬ |scale (calculate_volatility (List.replicate 10 (100 : ℝ))) - 1|
        < 0.1 := by
  have hv : calculate_volatility (List.replicate 10 (100 : ℝ)) = 0.0001 :=
    calculate_volatility_replicate 9 100 (by norm_num)
  refine ⟨hv, ?_⟩
  rw [hv]
  intro hcon
  rw [abs_lt] at hcon
  have h := scale_at_epsilon.1
  linarith [hcon.2]

/-- C9 amended: when the window fills with 10 identical prices of 100, the
volatility is exactly epsilon = 1e-4 and the resulting scale lies strictly
between 1.1 and 1.13 — approximately 1.12, not 1.0 (epsilon is below the
target volatility, so the scale lands above 1); with balanced balances
(base value = quote balance = 100) the buy and sell amounts both equal
`order_amount · scale`, and the placed proposal has buy price below 100 and
sell price above 100. -/
theorem c9_amended_end_to_end :
    calculate_volatility (List.replicate 10 (100 : ℝ)) = 0.0001 ∧
    (1.1 < scale 0.0001 ∧ scale 0.0001 < 1.13) ∧
    (on_tick ⟨List.replicate 9 100, 0⟩ ⟨100, 1, 100, 0⟩).placed =
      create_proposal 100 (dynamic_bid_spread (scale 0.0001))
        (dynamic_ask_spread (scale 0.0001))
        (order_amount * scale 0.0001) (order_amount * scale 0.0001) ∧
    ((on_tick ⟨List.replicate 9 100, 0⟩ ⟨100, 1, 100, 0⟩).placed.headI).price
      < 100 ∧
    (100 : ℝ) <
      ((on_tick ⟨List.replicate 9 100, 0⟩
        ⟨100, 1, 100, 0⟩).placed.tail.headI).price := by
  have hv : calculate_volatility (List.replicate 10 (100 : ℝ)) = 0.0001 :=
    calculate_volatility_replicate 9 100 (by norm_num)
  have hsc := scale_at_epsilon
  have hwin : tickWindow ⟨List.replicate 9 (100 : ℝ), 0⟩ ⟨100, 1, 100, 0⟩ =
      List.replicate 10 (100 : ℝ) := by
    rw [tickWindow, dequeAppend, if_neg (by norm_num [window_maxlen])]
    exact (List.replicate_succ' 9 (100 : ℝ)).symm
  have h1 : ¬ (tickWindow ⟨List.replicate 9 (100 : ℝ), 0⟩
      ⟨100, 1, 100, 0⟩).length < window_maxlen := by
    rw [hwin]
    norm_num [window_maxlen]
  have h2 : ¬ total_value ⟨100, 1, 100, 0⟩ = 0 := by
    norm_num [total_value]
  have h3 : ((⟨List.replicate 9 (100 : ℝ), 0⟩ :
      StrategyState)).create_timestamp ≤
      ((⟨100, 1, 100, 0⟩ : TickInput)).current_timestamp := le_refl 0
  have hplaced := on_tick_refresh _ _ h1 h2 h3
  have hts : tickScale ⟨List.replicate 9 (100 : ℝ), 0⟩ ⟨100, 1, 100, 0⟩ =
      scale 0.0001 := by
    rw [tickScale, hwin, hv]
  have hsk : tickSkew (⟨100, 1, 100, 0⟩ : TickInput) = 0 := by
    norm_num [tickSkew, inventory_skew, target_weight]
  have hfloor : min_order ≤ raw_buy_amount (base_amount (scale 0.0001)) 0 := by
    rw [raw_buy_amount, base_amount, min_order, order_amount]
    nlinarith [hsc.1]
  have hfloor' : min_order ≤
      raw_sell_amount (base_amount (scale 0.0001)) 0 := by
    rw [raw_sell_amount, base_amount, min_order, order_amount]
    nlinarith [hsc.1]
  have hbuy : buy_amount (base_amount (scale 0.0001)) 0 =
      order_amount * scale 0.0001 := by
    rw [buy_amount, max_eq_left hfloor, raw_buy_amount, base_amount]
    ring
  have hsell : sell_amount (base_amount (scale 0.0001)) 0 =
      order_amount * scale 0.0001 := by
    rw [sell_amount, max_eq_left hfloor', raw_sell_amount, base_amount]
    ring
  have hplaced2 : (on_tick ⟨List.replicate 9 (100 : ℝ), 0⟩
      ⟨100, 1, 100, 0⟩).placed =
      create_proposal 100 (dynamic_bid_spread (scale 0.0001))
        (dynamic_ask_spread (scale 0.0001))
        (order_amount * scale 0.0001) (order_amount * scale 0.0001) := by
    rw [hplaced]
    show tickProposal _ _ = _
    rw [tickProposal, hts, hsk, hbuy, hsell]
  have hdbs : 0 < dynamic_bid_spread (scale 0.0001) := by
    rw [dynamic_bid_spread, bid_spread]
    nlinarith [hsc.2]
  have hdas : 0 < dynamic_ask_spread (scale 0.0001) := by
    rw [dynamic_ask_spread, ask_spread]
    nlinarith [hsc.2]
  refine ⟨hv, hsc, hplaced2, ?_, ?_⟩
  · have hp : ((on_tick ⟨List.replicate 9 (100 : ℝ), 0⟩
        ⟨100, 1, 100, 0⟩).placed.headI).price =
        100 * (1 - dynamic_bid_spread (scale 0.0001) / 100) := by
      rw [hplaced2]
      rfl
    rw [hp]
    linarith
  · have hp : ((on_tick ⟨List.replicate 9 (100 : ℝ), 0⟩
        ⟨100, 1, 100, 0⟩).placed.tail.headI).price =
        100 * (1 + dynamic_ask_spread (scale 0.0001) / 100) := by
      rw [hplaced2]
      rfl
    rw [hp]
    linarith

/-- C10: the inventory skew is exactly zero-sum before the floor: the raw
buy and sell amounts always add up to twice the base amount, and when
neither `min_order` floor binds the floored amounts do too. -/
theorem c10_zero_sum_skew :
    (∀ ba bb qb mp : ℝ, bb * mp + qb ≠ 0 →
      raw_buy_amount ba (inventory_skew bb qb mp) +
        raw_sell_amount ba (inventory_skew bb qb mp) = 2 * ba) ∧
    (∀ ba k : ℝ, min_order ≤ raw_buy_amount ba k →
      min_order ≤ raw_sell_amount ba k →
      buy_amount ba k + sell_amount ba k = 2 * ba) := by
  constructor
  · intro ba bb qb mp _
    rw [raw_buy_amount, raw_sell_amount]
    ring
  · intro ba k hb hs
    rw [buy_amount, sell_amount, max_eq_left hb, max_eq_left hs,
      raw_buy_amount, raw_sell_amount]
    ring

/-- Witness for C10 at base amount 1, balances 1 and 1, mid price 1 and at
skew 0. -/
theorem c10_witness :
    raw_buy_amount 1 (inventory_skew 1 1 1) +
      raw_sell_amount 1 (inventory_skew 1 1 1) = 2 * 1 ∧
    buy_amount 1 0 + sell_amount 1 0 = 2 * 1 :=
  ⟨c10_zero_sum_skew.1 1 1 1 1 (by norm_num),
   c10_zero_sum_skew.2 1 0
     (by norm_num [raw_buy_amount, skew_strength, min_order])
     (by norm_num [raw_sell_amount, skew_strength, min_order])⟩

end CustomPMM

end
